import Mathlib

/-!
Shallow embedding of the Check Point R82 REST client/session layer
(`src/api/checkpoint_client.py` and `src/api/session_manager.py`):
the response envelope, the request executor `_make_request`, the retry
wrapper `_retry_request`, the two login flows, `logout`, and the
domain-operation skeleton (`create_access_rule`).

Modelling conventions:
* JSON bodies are flat dictionaries from string keys to string or
  integer values (`JVal`); this covers every field the client reads
  (`sid`, `url`, `domain`, `server`, `api-server-name`, `port`,
  `session-timeout`, `message`).  A body on which `response.json()`
  raises `ValueError` is modelled as `json = none`.
* One HTTP exchange is a `TransportOutcome`: either a response arrived,
  or the transport raised (timeout / connection error / other
  exception), mirroring the three `except` arms of `_make_request`.
* Wall-clock reads (`time.time()`) are passed in explicitly as a `Nat`
  argument `now`; logging calls have no effect on the modelled state and
  are dropped.
-/

namespace CPClient

/-- A JSON scalar value as read by the client: a string or an integer. -/
inductive JVal where
  | jstr (s : String)
  | jnum (n : Int)
deriving DecidableEq, Repr

/-- A flat JSON object: an association list of keys to scalar values. -/
abbrev JsonDict := List (String × JVal)

/-- Dictionary lookup, the model of Python `d["k"]` / `"k" in d` / `d.get("k")`. -/
def jlookup (d : JsonDict) (k : String) : Option JVal :=
  List.lookup k d

/-- Python `d.get(k, dflt)`. -/
def jget (d : JsonDict) (k : String) (dflt : JVal) : JVal :=
  (jlookup d k).getD dflt

/-- Python `d.get(k, dflt)` for a field the client uses as an integer
(`session-timeout`).  Non-numeric values for such fields are outside the
model (the source would store them unchecked). -/
def jgetInt (d : JsonDict) (k : String) (dflt : Int) : Int :=
  match jlookup d k with
  | some (.jnum n) => n
  | _ => dflt

/-- Truthiness of a JSON scalar under Python `if not x`. -/
def jvalFalsy : JVal → Bool
  | .jstr s => s = ""
  | .jnum n => n = 0

/-- An HTTP response as the client observes it: the status code, the
parsed JSON body (`none` when `response.json()` raises `ValueError`),
and the raw body text. -/
structure HttpResponse where
  status_code : Int
  json : Option JsonDict
  text : String
deriving DecidableEq, Repr

/-- The outcome of one attempted HTTP exchange: a response, or one of
the three exception classes `_make_request` catches (`Timeout`,
`ConnectionError`, any other `Exception` with its text). -/
inductive TransportOutcome where
  | response (r : HttpResponse)
  | timeout
  | connectionError
  | exn (t : String)
deriving DecidableEq, Repr

/-- The `data` payload of a success envelope: the parsed JSON body, or
the raw text when the 200 body is not JSON. -/
inductive Payload where
  | jsonData (d : JsonDict)
  | textData (s : String)
deriving DecidableEq, Repr

/-- The response envelope: the uniform dict `_make_request` returns.
`status_code` is optional because some envelopes built elsewhere in the
client (the "Authentication failed" short-circuit) omit the key. -/
structure Envelope where
  success : Bool
  data : Option Payload := none
  message : Option JVal := none
  status_code : Option Int := none
deriving DecidableEq, Repr

/-- The `Session` dataclass of `session_manager.py`.  String-typed
fields hold whatever JSON value the login response supplied (the source
stores them unchecked), hence `JVal`. -/
structure Session where
  sid : JVal
  url : JVal
  domain : JVal
  server : JVal
  port : JVal
  session_timeout : Int
  last_activity : Nat
deriving DecidableEq, Repr

/-- The mutable fields of `SessionManager`: `_session`,
`_last_activity`, `_session_timeout`, `is_authenticated`. -/
structure ManagerState where
  session : Option Session
  last_activity : Nat
  session_timeout : Int
  is_authenticated : Bool
deriving DecidableEq, Repr

/-- Embeds `SessionManager.update_activity`: sets `_last_activity` to
the current time. -/
def update_activity (st : ManagerState) (now : Nat) : ManagerState :=
  { st with last_activity := now }

/-- The envelope `_make_request` builds from one transport outcome
(checkpoint_client.py lines 104-154).  On a response: 200 with JSON
body gives a success envelope with the parsed data; 200 without JSON
gives success with the raw text; non-200 gives failure with the body's
`message` field if present, else the raw text if non-empty, else
"HTTP <code>".  The three exception arms synthesize 408/503/500. -/
def response_envelope : TransportOutcome → Envelope
  | .response r =>
      if r.status_code = 200 then
        match r.json with
        | some d => { success := true, data := some (.jsonData d),
                      status_code := some r.status_code }
        | none => { success := true, data := some (.textData r.text),
                    status_code := some r.status_code }
      else
        let base_msg := "HTTP " ++ toString r.status_code
        let error_message : JVal :=
          match r.json with
          | some d =>
              match jlookup d "message" with
              | some v => v
              | none => .jstr base_msg
          | none => if r.text = "" then .jstr base_msg else .jstr r.text
        { success := false, message := some error_message,
          status_code := some r.status_code }
  | .timeout =>
      { success := false, message := some (.jstr "Request timeout"),
        status_code := some 408 }
  | .connectionError =>
      { success := false, message := some (.jstr "Connection error"),
        status_code := some 503 }
  | .exn t =>
      { success := false, message := some (.jstr t),
        status_code := some 500 }

/-- Embeds `CheckPointClient._make_request` (lines 54-154): one HTTP
exchange with the given outcome, returning the envelope and the manager
state after the call.  `update_activity` sits after the
`session.request` call inside the `try` block, so it runs exactly when
a response arrived; the three `except` arms return without touching the
state. -/
def make_request (st : ManagerState) (now : Nat) (o : TransportOutcome) :
    Envelope × ManagerState :=
  match o with
  | .response r => (response_envelope (.response r), update_activity st now)
  | o => (response_envelope o, st)

/-- The retry wrapper's first stop test (line 170): status code in
[401, 403]. -/
def isAuthStatus (e : Envelope) : Bool :=
  decide (e.status_code = some 401) || decide (e.status_code = some 403)

/-- The retry wrapper's second stop test (lines 175-177): a client
error in [400, 500) other than 408/429.  `e.status_code.getD 0` is
Python `response.get("status_code", 0)`. -/
def isRetryIneligibleClientError (e : Envelope) : Bool :=
  (decide (400 ≤ e.status_code.getD 0) && decide (e.status_code.getD 0 < 500)) &&
  !(decide (e.status_code.getD 0 = 408) || decide (e.status_code.getD 0 = 429))

/-- A failure the retry loop keeps retrying: not a success, not an
auth error, not a retry-ineligible client error. -/
def retryableFailure (e : Envelope) : Bool :=
  !e.success && !isAuthStatus e && !isRetryIneligibleClientError e

/-- Result of the retry wrapper, with ghost instrumentation: the number
of `_make_request` calls made and the total of the `time.sleep` delays
incurred (in the units of `retry_delay`). -/
structure RetryOut where
  env : Envelope
  state : ManagerState
  calls : Nat
  delay : Nat
deriving DecidableEq, Repr

/-- One iteration of the loop of `CheckPointClient._retry_request`
(lines 163-196), at loop index `attempt` with `remaining` further
indices available (`remaining = max_retries - attempt`).  `oracle i`
is the transport outcome of the i-th underlying call, `times i` the
clock at that call.  A success returns immediately; a 401/403 or a
non-408/429 client error breaks out of the loop; otherwise, while
attempts remain, the loop sleeps `retry_delay * 2 ** attempt` and
continues; the last failure envelope is returned. -/
def retry_go (oracle : Nat → TransportOutcome) (times : Nat → Nat)
    (base_delay : Nat) (attempt : Nat) (remaining : Nat)
    (st : ManagerState) : RetryOut :=
  let res := make_request st (times attempt) (oracle attempt)
  if res.1.success then ⟨res.1, res.2, 1, 0⟩
  else if isAuthStatus res.1 then ⟨res.1, res.2, 1, 0⟩
  else if isRetryIneligibleClientError res.1 then ⟨res.1, res.2, 1, 0⟩
  else
    match remaining with
    | 0 => ⟨res.1, res.2, 1, 0⟩
    | r + 1 =>
        let rest := retry_go oracle times base_delay (attempt + 1) r res.2
        ⟨rest.env, rest.state, rest.calls + 1,
         base_delay * 2 ^ attempt + rest.delay⟩

/-- Embeds `CheckPointClient._retry_request` (lines 156-196) with
budget `max_retries`: the loop runs for attempt = 0 .. max_retries. -/
def retry_request (oracle : Nat → TransportOutcome) (times : Nat → Nat)
    (base_delay : Nat) (st : ManagerState) (max_retries : Nat) : RetryOut :=
  retry_go oracle times base_delay 0 max_retries st

/-- Embeds `SessionManager._login_smart1_cloud` (lines 53-118).
`api_key = none` models Python `None`; `if not api_key` rejects `none`
and the empty string before any network traffic.  On a 200 response the
body must parse as JSON (a `ValueError` from `response.json()` is
caught by the `except` arm, leaving the state untouched) and must carry
a truthy `sid`; only then is the session replaced wholesale and the
authenticated flag set.  The `cloud_infra_token` only affects request
headers and is omitted. -/
def login_smart1_cloud (st : ManagerState) (base_url : String) (now : Nat)
    (api_key : Option String) (o : TransportOutcome) : Bool × ManagerState :=
  if api_key.getD "" = "" then (false, st)
  else
    match o with
    | .response r =>
        if r.status_code = 200 then
          match r.json with
          | none => (false, st)
          | some d =>
              match jlookup d "sid" with
              | none => (false, st)
              | some sid =>
                  if jvalFalsy sid then (false, st)
                  else
                    let sess : Session :=
                      { sid := sid
                        url := jget d "url" (.jstr base_url)
                        domain := jget d "domain" (.jstr "Smart-1 Cloud")
                        server := jget d "api-server-name" (.jstr "Smart-1 Cloud")
                        port := jget d "port" (.jnum 443)
                        session_timeout := jgetInt d "session-timeout" 3600
                        last_activity := now }
                    (true, { session := some sess
                             last_activity := now
                             session_timeout := sess.session_timeout
                             is_authenticated := true })
        else (false, st)
    | _ => (false, st)

/-- Embeds `SessionManager._login_on_premise` (lines 120-163).  The
`username`/`password` only enter the request body and are omitted; the
`domain` argument is the default for the response's `domain` field.  On
a 200 response with a JSON body the session is replaced wholesale with
`sid` defaulting to the empty string — there is no `sid` presence check
on this path.  A non-200 status, a transport exception, or a
`ValueError` from `response.json()` leaves the state untouched. -/
def login_on_premise (st : ManagerState) (base_url : String) (now : Nat)
    (domain : String) (o : TransportOutcome) : Bool × ManagerState :=
  match o with
  | .response r =>
      if r.status_code = 200 then
        match r.json with
        | none => (false, st)
        | some d =>
            let sess : Session :=
              { sid := jget d "sid" (.jstr "")
                url := jget d "url" (.jstr base_url)
                domain := jget d "domain" (.jstr domain)
                server := jget d "server" (.jstr "")
                port := jget d "port" (.jnum 443)
                session_timeout := jgetInt d "session-timeout" 3600
                last_activity := now }
            (true, { session := some sess
                     last_activity := now
                     session_timeout := sess.session_timeout
                     is_authenticated := true })
      else (false, st)
  | _ => (false, st)

/-- Embeds `SessionManager.logout` (lines 165-193).  With no session it
returns `true` untouched (the `outcome` argument is irrelevant: no HTTP
call is made).  With a session, any received response — 200 or not —
clears the session, the authenticated flag and the activity timestamp
and returns `true`; a transport exception is caught and returns `false`
with the state untouched. -/
def logout (st : ManagerState) (o : TransportOutcome) : Bool × ManagerState :=
  match st.session with
  | none => (true, st)
  | some _ =>
      match o with
      | .response _ =>
          (true, { st with
                     session := none
                     is_authenticated := false
                     last_activity := 0 })
      | _ => (false, st)

/-- Embeds the envelope-producing skeleton of
`CheckPointClient.create_access_rule` (lines 227-263), the template
every domain operation follows: `ensure_auth_ok` is the result of
`ensure_authenticated()`, `validation_error` the message of a
`ValueError` from `validate_input` if one was raised, and
`retry_response` the envelope `_retry_request` would return for the
operation's request.  Note the two short-circuit envelopes carry no
`status_code` key. -/
def create_access_rule (ensure_auth_ok : Bool)
    (validation_error : Option String) (retry_response : Envelope) :
    Envelope :=
  if !ensure_auth_ok then
    { success := false, message := some (.jstr "Authentication failed") }
  else
    match validation_error with
    | some e => { success := false, message := some (.jstr e) }
    | none => retry_response

/-- Projection lemma: the envelope component of `make_request` depends
only on the transport outcome. -/
theorem make_request_fst (st : ManagerState) (now : Nat) (o : TransportOutcome) :
    (make_request st now o).1 = response_envelope o := by
  cases o <;> rfl

/-- C3: the Request Executor `_make_request` is total over its outcome
space — every transport failure is mapped to a synthesized failure
envelope: a timeout yields message "Request timeout" with code 408, a
connection failure yields "Connection error" with code 503, and any
other exception yields the exception text with code 500. -/
theorem make_request_transport_outcomes (st : ManagerState) (now : Nat) (t : String) :
    (make_request st now .timeout).1 =
      { success := false, message := some (.jstr "Request timeout"),
        status_code := some 408 } ∧
    (make_request st now .connectionError).1 =
      { success := false, message := some (.jstr "Connection error"),
        status_code := some 503 } ∧
    (make_request st now (.exn t)).1 =
      { success := false, message := some (.jstr t),
        status_code := some 500 } :=
  ⟨rfl, rfl, rfl⟩

/-- C4 counterexample: a non-200 response whose body is parseable JSON
lacking the "message" field yields the message "HTTP 400", not the raw
body text "\x7b\x7d" as the claim states. -/
theorem make_request_json_no_message_field_cex :
    (make_request ⟨none, 0, 3600, false⟩ 0
        (.response ⟨400, some [], "\x7b\x7d"⟩)).1.message =
      some (.jstr "HTTP 400") ∧
    JVal.jstr "HTTP 400" ≠ JVal.jstr "\x7b\x7d" :=
  ⟨by decide, by decide⟩

/-- C4 amended: for a non-200 response the executor returns a failure
envelope with the HTTP status; its message is the body's "message"
field when the body parses as JSON and has one, "HTTP <code>" when the
body parses as JSON without one, the raw body text when the body is
unparseable and non-empty, and "HTTP <code>" when it is unparseable and
empty. -/
theorem make_request_non200_message (st : ManagerState) (now : Nat)
    (r : HttpResponse) (h : r.status_code ≠ 200) :
    (make_request st now (.response r)).1.success = false ∧
    (make_request st now (.response r)).1.status_code = some r.status_code ∧
    (make_request st now (.response r)).1.message = some (
      match r.json with
      | some d => (jlookup d "message").getD
          (.jstr ("HTTP " ++ toString r.status_code))
      | none =>
          if r.text = "" then .jstr ("HTTP " ++ toString r.status_code)
          else .jstr r.text) := by
  rw [make_request_fst]
  simp only [response_envelope, if_neg h]
  rcases hj : r.json with _ | d
  · simp [hj]
  · rcases hm : jlookup d "message" with _ | v <;> simp [hj, hm]

/-- Witness for the amended C4 theorem at a concrete 404 response whose
JSON body carries a "message" field. -/
theorem make_request_non200_message_witness :
    (make_request ⟨none, 0, 3600, false⟩ 0
        (.response ⟨404, some [("message", .jstr "Not found")], "x"⟩)).1.success
        = false ∧
    (make_request ⟨none, 0, 3600, false⟩ 0
        (.response ⟨404, some [("message", .jstr "Not found")], "x"⟩)).1.status_code
        = some 404 ∧
    (make_request ⟨none, 0, 3600, false⟩ 0
        (.response ⟨404, some [("message", .jstr "Not found")], "x"⟩)).1.message
        = some (.jstr "Not found") := by
  have h := make_request_non200_message ⟨none, 0, 3600, false⟩ 0
    ⟨404, some [("message", .jstr "Not found")], "x"⟩ (by decide)
  exact ⟨h.1, h.2.1, h.2.2.trans (by decide)⟩

/-- C5 counterexample: a `_make_request` call whose outcome is a
transport timeout leaves the last-activity timestamp at its old value 0
instead of touching it to the current time 7. -/
theorem make_request_timeout_activity_cex :
    (make_request ⟨none, 0, 3600, false⟩ 7 .timeout).2.last_activity = 0 ∧
    (0 : Nat) ≠ 7 :=
  ⟨rfl, by decide⟩

/-- C5 amended: the executor touches the last-activity timestamp
exactly on the outcomes where an HTTP response was received (success or
HTTP-level failure); on a transport failure (timeout, connection error
or any other exception) the manager state, including the last-activity
timestamp, is left unchanged. -/
theorem make_request_activity_effect (st : ManagerState) (now : Nat)
    (r : HttpResponse) (t : String) :
    (make_request st now (.response r)).2 = update_activity st now ∧
    (update_activity st now).last_activity = now ∧
    (make_request st now .timeout).2 = st ∧
    (make_request st now .connectionError).2 = st ∧
    (make_request st now (.exn t)).2 = st :=
  ⟨rfl, rfl, rfl, rfl, rfl⟩

/-- C8: every envelope produced by the Request Executor satisfies the
envelope invariant — the data field is present exactly on success and
the message field exactly on failure. -/
theorem envelope_success_message_invariant (st : ManagerState) (now : Nat)
    (o : TransportOutcome) :
    (make_request st now o).1.data.isSome = (make_request st now o).1.success ∧
    (make_request st now o).1.message.isSome
      = !(make_request st now o).1.success := by
  rw [make_request_fst]
  cases o with
  | response r =>
      by_cases h200 : r.status_code = 200 <;>
        rcases hj : r.json with _ | d <;>
          simp [response_envelope, h200, hj]
  | timeout => exact ⟨rfl, rfl⟩
  | connectionError => exact ⟨rfl, rfl⟩
  | exn t => exact ⟨rfl, rfl⟩

/-- C9 counterexample: the failure envelope returned when
re-authentication fails carries no status code at all — the
"status_code" key is absent. -/
theorem auth_failed_envelope_missing_status_cex :
    create_access_rule false none { success := true } =
      { success := false, message := some (.jstr "Authentication failed"),
        status_code := none } ∧
    (create_access_rule false none { success := true }).status_code = none :=
  ⟨rfl, rfl⟩

/-- C9 amended: every envelope produced by the Request Executor carries
an integer status code, and a domain operation passes the retry
envelope through unchanged on the happy path; but the short-circuit
envelope produced when re-authentication fails is
(success=false, message="Authentication failed") with no status code —
that terminal outcome is distinguishable by its message only. -/
theorem envelope_status_code_presence (st : ManagerState) (now : Nat)
    (o : TransportOutcome) (v : Option String) (e : Envelope) :
    (make_request st now o).1.status_code.isSome = true ∧
    create_access_rule false v e =
      { success := false, message := some (.jstr "Authentication failed"),
        status_code := none } ∧
    create_access_rule true none e = e := by
  refine ⟨?_, rfl, rfl⟩
  rw [make_request_fst]
  cases o with
  | response r =>
      by_cases h200 : r.status_code = 200 <;>
        rcases hj : r.json with _ | d <;>
          simp [response_envelope, h200, hj]
  | timeout => rfl
  | connectionError => rfl
  | exn t => rfl

/-- Unfolding lemma: with no retries remaining, the loop makes exactly
one call and returns its envelope, whatever the failure class. -/
theorem retry_go_zero (oracle : Nat → TransportOutcome) (times : Nat → Nat)
    (base_delay : Nat) (attempt : Nat) (st : ManagerState) :
    retry_go oracle times base_delay attempt 0 st =
      ⟨response_envelope (oracle attempt),
       (make_request st (times attempt) (oracle attempt)).2, 1, 0⟩ := by
  simp only [retry_go, make_request_fst]
  split
  · rfl
  · split
    · rfl
    · split
      · rfl
      · rfl

/-- Unfolding lemma: a successful envelope returns immediately with one
call and no delay. -/
theorem retry_go_success (oracle : Nat → TransportOutcome) (times : Nat → Nat)
    (base_delay : Nat) (attempt remaining : Nat) (st : ManagerState)
    (h : (response_envelope (oracle attempt)).success = true) :
    retry_go oracle times base_delay attempt remaining st =
      ⟨response_envelope (oracle attempt),
       (make_request st (times attempt) (oracle attempt)).2, 1, 0⟩ := by
  cases remaining <;> simp only [retry_go, make_request_fst, h, if_true]

/-- Unfolding lemma: a failure that is an auth error or a
retry-ineligible client error breaks out of the loop after one call. -/
theorem retry_go_stop (oracle : Nat → TransportOutcome) (times : Nat → Nat)
    (base_delay : Nat) (attempt remaining : Nat) (st : ManagerState)
    (hf : (response_envelope (oracle attempt)).success = false)
    (hstop : isAuthStatus (response_envelope (oracle attempt)) = true ∨
      isRetryIneligibleClientError (response_envelope (oracle attempt)) = true) :
    retry_go oracle times base_delay attempt remaining st =
      ⟨response_envelope (oracle attempt),
       (make_request st (times attempt) (oracle attempt)).2, 1, 0⟩ := by
  by_cases ha : isAuthStatus (response_envelope (oracle attempt)) = true
  · cases remaining <;>
      simp only [retry_go, make_request_fst, hf, ha, Bool.false_eq_true,
        if_false, if_true]
  · have hc : isRetryIneligibleClientError (response_envelope (oracle attempt))
        = true := hstop.resolve_left ha
    have ha2 : isAuthStatus (response_envelope (oracle attempt)) = false :=
      Bool.not_eq_true _ ▸ (by simpa using ha)
    cases remaining <;>
      simp only [retry_go, make_request_fst, hf, ha2, hc, Bool.false_eq_true,
        if_false, if_true]

/-- Unfolding lemma: a retryable failure with retries remaining sleeps
`base_delay * 2 ^ attempt` and continues with the next attempt. -/
theorem retry_go_succ_retryable (oracle : Nat → TransportOutcome)
    (times : Nat → Nat) (base_delay : Nat) (attempt r : Nat)
    (st : ManagerState)
    (h : retryableFailure (response_envelope (oracle attempt)) = true) :
    retry_go oracle times base_delay attempt (r + 1) st =
      ⟨(retry_go oracle times base_delay (attempt + 1) r
          (make_request st (times attempt) (oracle attempt)).2).env,
       (retry_go oracle times base_delay (attempt + 1) r
          (make_request st (times attempt) (oracle attempt)).2).state,
       (retry_go oracle times base_delay (attempt + 1) r
          (make_request st (times attempt) (oracle attempt)).2).calls + 1,
       base_delay * 2 ^ attempt +
         (retry_go oracle times base_delay (attempt + 1) r
            (make_request st (times attempt) (oracle attempt)).2).delay⟩ := by
  simp only [retryableFailure, Bool.and_eq_true, Bool.not_eq_true'] at h
  obtain ⟨⟨h1, h2⟩, h3⟩ := h
  simp only [retry_go, make_request_fst, h1, h2, h3, Bool.false_eq_true,
    if_false]

/-- The loop makes at most `remaining + 1` underlying calls. -/
theorem retry_go_calls_le (oracle : Nat → TransportOutcome)
    (times : Nat → Nat) (base_delay : Nat) :
    ∀ (remaining attempt : Nat) (st : ManagerState),
      (retry_go oracle times base_delay attempt remaining st).calls
        ≤ remaining + 1 := by
  intro remaining
  induction remaining with
  | zero =>
      intro attempt st
      rw [retry_go_zero]
  | succ r ih =>
      intro attempt st
      simp only [retry_go, make_request_fst]
      split
      · exact Nat.le_add_left 1 (r + 1)
      · split
        · exact Nat.le_add_left 1 (r + 1)
        · split
          · exact Nat.le_add_left 1 (r + 1)
          · exact Nat.succ_le_succ (ih (attempt + 1) _)

/-- When every attempt up to the budget produces a retryable failure,
the loop makes exactly `remaining + 1` calls, returns the last failure
envelope, and accumulates the full exponential-backoff delay. -/
theorem retry_go_all_fail (oracle : Nat → TransportOutcome)
    (times : Nat → Nat) (base_delay : Nat) :
    ∀ (remaining attempt : Nat) (st : ManagerState),
      (∀ i, i ≤ remaining →
        retryableFailure (response_envelope (oracle (attempt + i))) = true) →
      (retry_go oracle times base_delay attempt remaining st).env
          = response_envelope (oracle (attempt + remaining)) ∧
      (retry_go oracle times base_delay attempt remaining st).calls
          = remaining + 1 ∧
      (retry_go oracle times base_delay attempt remaining st).delay
          = ∑ j ∈ Finset.range remaining, base_delay * 2 ^ (attempt + j) := by
  intro remaining
  induction remaining with
  | zero =>
      intro attempt st h
      rw [retry_go_zero]
      exact ⟨by rw [Nat.add_zero], rfl, by simp⟩
  | succ r ih =>
      intro attempt st h
      have hcur : retryableFailure (response_envelope (oracle attempt)) = true := by
        have := h 0 (Nat.zero_le _)
        rwa [Nat.add_zero] at this
      rw [retry_go_succ_retryable oracle times base_delay attempt r st hcur]
      have hnext : ∀ i, i ≤ r →
          retryableFailure (response_envelope (oracle (attempt + 1 + i))) = true := by
        intro i hi
        have := h (i + 1) (Nat.succ_le_succ hi)
        rwa [show attempt + (i + 1) = attempt + 1 + i by omega] at this
      obtain ⟨he, hc, hd⟩ := ih (attempt + 1)
        (make_request st (times attempt) (oracle attempt)).2 hnext
      refine ⟨?_, ?_, ?_⟩
      · dsimp only
        rw [he, show attempt + 1 + r = attempt + (r + 1) from by omega]
      · dsimp only
        rw [hc]
      · dsimp only
        rw [hd, Finset.sum_range_succ', Nat.add_zero]
        have hsum : ∑ j ∈ Finset.range r, base_delay * 2 ^ (attempt + 1 + j)
            = ∑ k ∈ Finset.range r, base_delay * 2 ^ (attempt + (k + 1)) :=
          Finset.sum_congr rfl (fun j _ => by
            rw [show attempt + 1 + j = attempt + (j + 1) from by omega])
        rw [hsum]
        exact Nat.add_comm _ _

/-- Unfolding the loop across the first success: when attempts
`attempt .. attempt + k - 1` produce retryable failures and attempt
`attempt + k` succeeds, with at least `k` retries remaining, the loop
makes exactly `k + 1` calls, returns the success envelope, and
accumulates exactly the backoff delays of the `k` failed attempts. -/
theorem retry_go_first_success (oracle : Nat → TransportOutcome)
    (times : Nat → Nat) (base_delay : Nat) :
    ∀ (k attempt remaining : Nat) (st : ManagerState),
      k ≤ remaining →
      (∀ i, i < k →
        retryableFailure (response_envelope (oracle (attempt + i))) = true) →
      (response_envelope (oracle (attempt + k))).success = true →
      (retry_go oracle times base_delay attempt remaining st).env
          = response_envelope (oracle (attempt + k)) ∧
      (retry_go oracle times base_delay attempt remaining st).calls = k + 1 ∧
      (retry_go oracle times base_delay attempt remaining st).delay
          = ∑ j ∈ Finset.range k, base_delay * 2 ^ (attempt + j) := by
  intro k
  induction k with
  | zero =>
      intro attempt remaining st _ _ hs
      rw [Nat.add_zero] at hs
      rw [retry_go_success oracle times base_delay attempt remaining st hs]
      exact ⟨by rw [Nat.add_zero], rfl, by simp⟩
  | succ k ih =>
      intro attempt remaining st hk hfail hs
      have hcur : retryableFailure (response_envelope (oracle attempt)) = true := by
        have := hfail 0 (Nat.succ_pos k)
        rwa [Nat.add_zero] at this
      obtain ⟨r, rfl⟩ : ∃ r, remaining = r + 1 := by
        rcases remaining with _ | r
        · omega
        · exact ⟨r, rfl⟩
      rw [retry_go_succ_retryable oracle times base_delay attempt r st hcur]
      have hnext : ∀ i, i < k →
          retryableFailure (response_envelope (oracle (attempt + 1 + i))) = true := by
        intro i hi
        have := hfail (i + 1) (Nat.succ_lt_succ hi)
        rwa [show attempt + (i + 1) = attempt + 1 + i from by omega] at this
      have hs2 : (response_envelope (oracle (attempt + 1 + k))).success = true := by
        rwa [show attempt + 1 + k = attempt + (k + 1) from by omega]
      obtain ⟨he, hc, hd⟩ := ih (attempt + 1) r
        (make_request st (times attempt) (oracle attempt)).2 (by omega) hnext hs2
      refine ⟨?_, ?_, ?_⟩
      · dsimp only
        rw [he, show attempt + 1 + k = attempt + (k + 1) from by omega]
      · dsimp only
        rw [hc]
      · dsimp only
        rw [hd, Finset.sum_range_succ', Nat.add_zero]
        have hsum : ∑ j ∈ Finset.range k, base_delay * 2 ^ (attempt + 1 + j)
            = ∑ j ∈ Finset.range k, base_delay * 2 ^ (attempt + (j + 1)) :=
          Finset.sum_congr rfl (fun j _ => by
            rw [show attempt + 1 + j = attempt + (j + 1) from by omega])
        rw [hsum]
        exact Nat.add_comm _ _

/-- C1: the retry wrapper invokes the Request Executor for attempts
0 .. max_retries inclusive, so at most max_retries + 1 calls; the first
successful envelope — at whatever attempt `k` it occurs — is returned
immediately with exactly k + 1 calls, having slept only the backoff of
the k failed attempts before it; and when every attempt fails with a
retryable status, exactly max_retries + 1 calls occur, the sleeps
before the retries total `base_delay * 2 ^ attempt` summed over
attempts 0 .. max_retries - 1, and the returned envelope is the last
failure envelope. -/
theorem retry_policy_attempt_budget :
    (∀ (oracle : Nat → TransportOutcome) (times : Nat → Nat)
        (base_delay : Nat) (st : ManagerState) (m : Nat),
      (retry_request oracle times base_delay st m).calls ≤ m + 1) ∧
    (∀ (oracle : Nat → TransportOutcome) (times : Nat → Nat)
        (base_delay : Nat) (st : ManagerState) (m : Nat),
      (response_envelope (oracle 0)).success = true →
        retry_request oracle times base_delay st m =
          ⟨response_envelope (oracle 0),
           (make_request st (times 0) (oracle 0)).2, 1, 0⟩) ∧
    (∀ (oracle : Nat → TransportOutcome) (times : Nat → Nat)
        (base_delay : Nat) (st : ManagerState) (m : Nat),
      (∀ i, i ≤ m → retryableFailure (response_envelope (oracle i)) = true) →
        (retry_request oracle times base_delay st m).calls = m + 1 ∧
        (retry_request oracle times base_delay st m).env
          = response_envelope (oracle m) ∧
        (retry_request oracle times base_delay st m).delay
          = ∑ i ∈ Finset.range m, base_delay * 2 ^ i) ∧
    (∀ (oracle : Nat → TransportOutcome) (times : Nat → Nat)
        (base_delay : Nat) (st : ManagerState) (m k : Nat),
      k ≤ m →
      (∀ i, i < k → retryableFailure (response_envelope (oracle i)) = true) →
      (response_envelope (oracle k)).success = true →
        (retry_request oracle times base_delay st m).calls = k + 1 ∧
        (retry_request oracle times base_delay st m).env
          = response_envelope (oracle k) ∧
        (retry_request oracle times base_delay st m).delay
          = ∑ i ∈ Finset.range k, base_delay * 2 ^ i) := by
  refine ⟨fun oracle times base_delay st m => ?_,
    fun oracle times base_delay st m h => ?_,
    fun oracle times base_delay st m h => ?_,
    fun oracle times base_delay st m k hk hfail hs => ?_⟩
  · exact retry_go_calls_le oracle times base_delay m 0 st
  · exact retry_go_success oracle times base_delay 0 m st h
  · have := retry_go_all_fail oracle times base_delay m 0 st
      (by intro i hi; rw [Nat.zero_add]; exact h i hi)
    rw [Nat.zero_add] at this
    obtain ⟨he, hc, hd⟩ := this
    refine ⟨hc, he, ?_⟩
    unfold retry_request
    rw [hd]
    refine Finset.sum_congr rfl ?_
    intro j _
    rw [Nat.zero_add]
  · have := retry_go_first_success oracle times base_delay k 0 m st hk
      (by intro i hi; rw [Nat.zero_add]; exact hfail i hi)
      (by rw [Nat.zero_add]; exact hs)
    obtain ⟨he, hc, hd⟩ := this
    rw [Nat.zero_add] at he
    refine ⟨hc, he, ?_⟩
    unfold retry_request
    rw [hd]
    refine Finset.sum_congr rfl ?_
    intro j _
    rw [Nat.zero_add]

/-- C2: a first failure with status 401/403, or any other client-error
status in [400, 500) excluding 408 and 429, stops the loop after
exactly one underlying call with no backoff delay, returning that
failure envelope. -/
theorem retry_policy_client_error_single_call (oracle : Nat → TransportOutcome)
    (times : Nat → Nat) (base_delay : Nat) (st : ManagerState) (m : Nat)
    (hfail : (response_envelope (oracle 0)).success = false)
    (hcode : (response_envelope (oracle 0)).status_code = some 401 ∨
      (response_envelope (oracle 0)).status_code = some 403 ∨
      ∃ c : Int, (response_envelope (oracle 0)).status_code = some c ∧
        400 ≤ c ∧ c < 500 ∧ c ≠ 408 ∧ c ≠ 429) :
    retry_request oracle times base_delay st m =
      ⟨response_envelope (oracle 0),
       (make_request st (times 0) (oracle 0)).2, 1, 0⟩ := by
  have hstop : isAuthStatus (response_envelope (oracle 0)) = true ∨
      isRetryIneligibleClientError (response_envelope (oracle 0)) = true := by
    rcases hcode with h1 | h3 | ⟨c, hc, hb1, hb2, hb3, hb4⟩
    · exact Or.inl (by simp [isAuthStatus, h1])
    · exact Or.inl (by simp [isAuthStatus, h3])
    · refine Or.inr ?_
      simp only [isRetryIneligibleClientError, hc, Option.getD_some]
      simp [hb1, hb2, hb3, hb4]
  exact retry_go_stop oracle times base_delay 0 m st hfail hstop

/-- Witness for C2 at a concrete first response of 401 with a budget of
five retries: one call, no delay, the 401 envelope returned. -/
theorem retry_policy_client_error_single_call_witness :
    retry_request (fun _ => .response ⟨401, none, "denied"⟩) (fun _ => 3) 2
        ⟨none, 0, 3600, false⟩ 5 =
      ⟨{ success := false, message := some (.jstr "denied"),
         status_code := some 401 },
       ⟨none, 3, 3600, false⟩, 1, 0⟩ := by
  have h := retry_policy_client_error_single_call
    (fun _ => .response ⟨401, none, "denied"⟩) (fun _ => 3) 2
    ⟨none, 0, 3600, false⟩ 5 (by decide)
    (Or.inl (by decide))
  rw [h]
  rfl

/-- Witness for C1 at two concrete scripted runs.  Exhaustion: every
attempt returns HTTP 500 with body "boom", the budget is 2 retries with
base delay 1, so 3 calls occur, the 500 envelope is returned, and the
sleeps total 1 * 2 ^ 0 + 1 * 2 ^ 1 = 3.  Mid-loop success: attempts 0
and 1 return HTTP 503 and attempt 2 returns HTTP 200, with a budget of
3 retries, so exactly 3 calls occur, the success envelope is returned
immediately, and only the two backoff sleeps before it are incurred. -/
theorem retry_policy_attempt_budget_witness :
    (retry_request (fun _ => .response ⟨500, none, "boom"⟩) (fun _ => 0) 1
        ⟨none, 0, 3600, false⟩ 2).calls = 3 ∧
    (retry_request (fun _ => .response ⟨500, none, "boom"⟩) (fun _ => 0) 1
        ⟨none, 0, 3600, false⟩ 2).env =
      { success := false, message := some (.jstr "boom"),
        status_code := some 500 } ∧
    (retry_request (fun _ => .response ⟨500, none, "boom"⟩) (fun _ => 0) 1
        ⟨none, 0, 3600, false⟩ 2).delay = 3 ∧
    (retry_request (fun i => if i < 2 then .response ⟨503, none, "busy"⟩
        else .response ⟨200, some [], ""⟩) (fun _ => 0) 1
        ⟨none, 0, 3600, false⟩ 3).calls = 3 ∧
    (retry_request (fun i => if i < 2 then .response ⟨503, none, "busy"⟩
        else .response ⟨200, some [], ""⟩) (fun _ => 0) 1
        ⟨none, 0, 3600, false⟩ 3).env =
      { success := true, data := some (.jsonData []),
        status_code := some 200 } ∧
    (retry_request (fun i => if i < 2 then .response ⟨503, none, "busy"⟩
        else .response ⟨200, some [], ""⟩) (fun _ => 0) 1
        ⟨none, 0, 3600, false⟩ 3).delay = 3 := by
  have h := retry_policy_attempt_budget.2.2.1
    (fun _ => .response ⟨500, none, "boom"⟩) (fun _ => 0) 1
    ⟨none, 0, 3600, false⟩ 2 (fun i _ => rfl)
  have h2 := retry_policy_attempt_budget.2.2.2
    (fun i => if i < 2 then .response ⟨503, none, "busy"⟩
      else .response ⟨200, some [], ""⟩) (fun _ => 0) 1
    ⟨none, 0, 3600, false⟩ 3 2 (by decide)
    (by intro i hi; interval_cases i <;> decide) (by decide)
  exact ⟨h.1, h.2.1.trans (by decide), h.2.2.trans (by decide),
    h2.1, h2.2.1.trans (by decide), h2.2.2.trans (by decide)⟩

/-- C6 amended: for the Smart-1 Cloud login flow, an HTTP 200 login
response whose body fails to parse or whose JSON body lacks a truthy
`sid` never authenticates — the call returns false and leaves the
manager state (and so the authenticated flag) unchanged.  The
on-premise flow does not have this guard: it defaults the missing `sid`
to the empty string and authenticates (see the counterexample). -/
theorem login_smart1_missing_sid_rejected (st : ManagerState) (base : String)
    (now : Nat) (key : Option String) (r : HttpResponse)
    (h200 : r.status_code = 200)
    (hsid : ∀ d, r.json = some d →
      jlookup d "sid" = none ∨
      ∃ v, jlookup d "sid" = some v ∧ jvalFalsy v = true) :
    login_smart1_cloud st base now key (.response r) = (false, st) := by
  rcases hj : r.json with _ | d
  · simp [login_smart1_cloud, h200, hj]
  · rcases hsid d hj with hn | ⟨v, hv, hfal⟩
    · simp [login_smart1_cloud, h200, hj, hn]
    · simp [login_smart1_cloud, h200, hj, hv, hfal]

/-- Witness for the amended C6 theorem: a Smart-1 Cloud login against a
200 response with an empty JSON body returns false and leaves the
fresh unauthenticated state unchanged. -/
theorem login_smart1_missing_sid_rejected_witness :
    login_smart1_cloud ⟨none, 0, 3600, false⟩ "https://mgmt" 5 (some "k")
        (.response ⟨200, some [], ""⟩) = (false, ⟨none, 0, 3600, false⟩) :=
  login_smart1_missing_sid_rejected ⟨none, 0, 3600, false⟩ "https://mgmt" 5
    (some "k") ⟨200, some [], ""⟩ rfl
    (by
      intro d hd
      cases hd
      exact Or.inl rfl)

/-- C6 counterexample: the on-premise login flow, on an HTTP 200
response whose JSON body lacks the `sid` field (here the empty object),
returns true and sets the authenticated flag — contradicting the claim
that a login response lacking a session identifier never results in
`is_authenticated` being true. -/
theorem login_on_premise_missing_sid_cex :
    (login_on_premise ⟨none, 0, 3600, false⟩ "https://mgmt" 5 "dom"
        (.response ⟨200, some [], "\x7b\x7d"⟩)).1 = true ∧
    (login_on_premise ⟨none, 0, 3600, false⟩ "https://mgmt" 5 "dom"
        (.response ⟨200, some [], "\x7b\x7d"⟩)).2.is_authenticated = true ∧
    (login_on_premise ⟨none, 0, 3600, false⟩ "https://mgmt" 5 "dom"
        (.response ⟨200, some [], "\x7b\x7d"⟩)).2.session =
      some { sid := .jstr "", url := .jstr "https://mgmt",
             domain := .jstr "dom", server := .jstr "",
             port := .jnum 443, session_timeout := 3600,
             last_activity := 5 } :=
  ⟨rfl, rfl, by decide⟩

/-- C7: login is atomic with respect to the session state, for both
flows.  On an HTTP 200 response carrying a (truthy, for Smart-1 Cloud)
session identifier the whole manager state is replaced by a state built
from the response alone — no field of the prior session survives; on a
non-200 status, an unparseable 200 body, or a transport exception, the
call returns false and the prior state is untouched. -/
theorem login_atomicity :
    (∀ (st : ManagerState) (base : String) (now : Nat) (key : Option String)
        (r : HttpResponse) (d : JsonDict) (v : JVal),
      key.getD "" ≠ "" → r.status_code = 200 → r.json = some d →
      jlookup d "sid" = some v → jvalFalsy v = false →
      login_smart1_cloud st base now key (.response r) =
        (true,
         { session := some
             { sid := v
               url := jget d "url" (.jstr base)
               domain := jget d "domain" (.jstr "Smart-1 Cloud")
               server := jget d "api-server-name" (.jstr "Smart-1 Cloud")
               port := jget d "port" (.jnum 443)
               session_timeout := jgetInt d "session-timeout" 3600
               last_activity := now }
           last_activity := now
           session_timeout := jgetInt d "session-timeout" 3600
           is_authenticated := true })) ∧
    (∀ (st : ManagerState) (base : String) (now : Nat) (domain : String)
        (r : HttpResponse) (d : JsonDict),
      r.status_code = 200 → r.json = some d →
      login_on_premise st base now domain (.response r) =
        (true,
         { session := some
             { sid := jget d "sid" (.jstr "")
               url := jget d "url" (.jstr base)
               domain := jget d "domain" (.jstr domain)
               server := jget d "server" (.jstr "")
               port := jget d "port" (.jnum 443)
               session_timeout := jgetInt d "session-timeout" 3600
               last_activity := now }
           last_activity := now
           session_timeout := jgetInt d "session-timeout" 3600
           is_authenticated := true })) ∧
    (∀ (st : ManagerState) (base : String) (now : Nat) (key : Option String)
        (r : HttpResponse),
      r.status_code ≠ 200 →
      login_smart1_cloud st base now key (.response r) = (false, st)) ∧
    (∀ (st : ManagerState) (base : String) (now : Nat) (key : Option String)
        (r : HttpResponse),
      r.json = none →
      login_smart1_cloud st base now key (.response r) = (false, st)) ∧
    (∀ (st : ManagerState) (base : String) (now : Nat) (key : Option String)
        (t : String),
      login_smart1_cloud st base now key .timeout = (false, st) ∧
      login_smart1_cloud st base now key .connectionError = (false, st) ∧
      login_smart1_cloud st base now key (.exn t) = (false, st)) ∧
    (∀ (st : ManagerState) (base : String) (now : Nat) (domain : String)
        (r : HttpResponse),
      r.status_code ≠ 200 →
      login_on_premise st base now domain (.response r) = (false, st)) ∧
    (∀ (st : ManagerState) (base : String) (now : Nat) (domain : String)
        (r : HttpResponse),
      r.json = none →
      login_on_premise st base now domain (.response r) = (false, st)) ∧
    (∀ (st : ManagerState) (base : String) (now : Nat) (domain : String)
        (t : String),
      login_on_premise st base now domain .timeout = (false, st) ∧
      login_on_premise st base now domain .connectionError = (false, st) ∧
      login_on_premise st base now domain (.exn t) = (false, st)) := by
  refine ⟨?_, ?_, ?_, ?_, ?_, ?_, ?_, ?_⟩
  · intro st base now key r d v hk h200 hj hv hfal
    simp [login_smart1_cloud, hk, h200, hj, hv, hfal]
  · intro st base now domain r d h200 hj
    simp [login_on_premise, h200, hj]
  · intro st base now key r h200
    simp [login_smart1_cloud, h200]
  · intro st base now key r hj
    by_cases h200 : r.status_code = 200 <;>
      simp [login_smart1_cloud, h200, hj]
  · intro st base now key t
    refine ⟨?_, ?_, ?_⟩ <;> simp [login_smart1_cloud]
  · intro st base now domain r h200
    simp [login_on_premise, h200]
  · intro st base now domain r hj
    by_cases h200 : r.status_code = 200 <;>
      simp [login_on_premise, h200, hj]
  · intro st base now domain t
    exact ⟨rfl, rfl, rfl⟩

/-- Witness for C7 at concrete states: a Smart-1 Cloud login over a
stale authenticated state, against a 200 response with sid "S1" and a
session-timeout override of 600, replaces the whole state; the same
login against a 500 response leaves the stale state untouched. -/
theorem login_atomicity_witness :
    login_smart1_cloud
        ⟨some { sid := .jstr "OLD", url := .jstr "old", domain := .jstr "old",
                server := .jstr "old", port := .jnum 1,
                session_timeout := 1, last_activity := 1 }, 1, 1, true⟩
        "https://mgmt" 7 (some "k")
        (.response ⟨200, some [("sid", .jstr "S1"),
                               ("session-timeout", .jnum 600)], ""⟩) =
      (true,
       ⟨some { sid := .jstr "S1", url := .jstr "https://mgmt",
               domain := .jstr "Smart-1 Cloud",
               server := .jstr "Smart-1 Cloud", port := .jnum 443,
               session_timeout := 600, last_activity := 7 },
        7, 600, true⟩) ∧
    login_smart1_cloud
        ⟨some { sid := .jstr "OLD", url := .jstr "old", domain := .jstr "old",
                server := .jstr "old", port := .jnum 1,
                session_timeout := 1, last_activity := 1 }, 1, 1, true⟩
        "https://mgmt" 7 (some "k") (.response ⟨500, none, "err"⟩) =
      (false,
       ⟨some { sid := .jstr "OLD", url := .jstr "old", domain := .jstr "old",
               server := .jstr "old", port := .jnum 1,
               session_timeout := 1, last_activity := 1 }, 1, 1, true⟩) :=
  ⟨(login_atomicity.1 _ "https://mgmt" 7 (some "k")
      ⟨200, some [("sid", .jstr "S1"), ("session-timeout", .jnum 600)], ""⟩
      [("sid", .jstr "S1"), ("session-timeout", .jnum 600)] (.jstr "S1")
      (by decide) rfl rfl (by decide) (by decide)).trans (by decide),
   login_atomicity.2.2.1 _ "https://mgmt" 7 (some "k")
      ⟨500, none, "err"⟩ (by decide)⟩

/-- C10: whenever `logout` completes without a transport exception —
including when no session exists, and including when the remote call
returns a non-200 status — the session ends up absent, the
authenticated flag false and the activity timestamp cleared, and the
call returns true; a transport exception leaves the state untouched and
returns false.  The no-session case relies on the manager's reachable
states satisfying `session = none → is_authenticated = false`, stated
here as an explicit hypothesis. -/
theorem logout_state_transition :
    (∀ (st : ManagerState) (o : TransportOutcome),
      st.session = none → st.is_authenticated = false →
      logout st o = (true, st)) ∧
    (∀ (st : ManagerState) (s : Session) (r : HttpResponse),
      st.session = some s →
      logout st (.response r) =
        (true, { st with
                   session := none
                   is_authenticated := false
                   last_activity := 0 })) ∧
    (∀ (st : ManagerState) (s : Session) (t : String),
      st.session = some s →
      logout st .timeout = (false, st) ∧
      logout st .connectionError = (false, st) ∧
      logout st (.exn t) = (false, st)) := by
  refine ⟨?_, ?_, ?_⟩
  · intro st o hs _
    unfold logout
    rw [hs]
  · intro st s r hs
    unfold logout
    rw [hs]
  · intro st s t hs
    refine ⟨?_, ?_, ?_⟩ <;> (unfold logout; rw [hs])

/-- Witness for C10 at concrete states: a logout with a live session
and a 500 response still clears the state and returns true, and a
logout with a live session and a timeout returns false untouched. -/
theorem logout_state_transition_witness :
    logout ⟨some { sid := .jstr "S1", url := .jstr "u", domain := .jstr "d",
                   server := .jstr "s", port := .jnum 443,
                   session_timeout := 600, last_activity := 9 },
            9, 600, true⟩
        (.response ⟨500, none, "err"⟩) =
      (true, ⟨none, 0, 600, false⟩) ∧
    logout ⟨some { sid := .jstr "S1", url := .jstr "u", domain := .jstr "d",
                   server := .jstr "s", port := .jnum 443,
                   session_timeout := 600, last_activity := 9 },
            9, 600, true⟩ .timeout =
      (false, ⟨some { sid := .jstr "S1", url := .jstr "u",
                      domain := .jstr "d", server := .jstr "s",
                      port := .jnum 443, session_timeout := 600,
                      last_activity := 9 }, 9, 600, true⟩) :=
  ⟨logout_state_transition.2.1 _ _ ⟨500, none, "err"⟩ rfl,
   (logout_state_transition.2.2 _ _ "x" rfl).1⟩

end CPClient
